import Mathlib

/-!
# TimeAttackPawn: camera toggle, HUD strings, friction flip and engine audio

A shallow embedding of `UnrealEngine4/TimeAttack/Source/TimeAttack/TimeAttackPawn.cpp`.

Modelling conventions.

* `float` values on which the file computes (forward speed, engine speeds, look-axis values,
  rotator components, audio parameters) are IEEE 754 single-precision values, `Binary32`,
  with every operation rounded to nearest, ties to even.  Vector components are never
  computed with in the file (they are stored, copied, and the Z of the up-vector is compared
  with 0), so `FVector` keeps rational components; the frame time `Delta` is only handed to
  the engine base class.  `int32` values are integers (`Int`); no arithmetic is performed
  on the gear, so no wrap-around is involved there.
* The engine objects the pawn talks to are records holding exactly the fields that the
  source reads or writes; engine setters (`Activate`, `SetVisibility`, `SetText`, ...) are
  the obvious field updates.
* Pointers that the source itself tests against null somewhere (`GetController()`,
  `InCarSpeed`, `InCarGear`, `InputComponent`) are `Option`s.  A function that dereferences
  one of them without a test returns `none` when the pointer is null.  Pointers the source
  never tests (`Camera`, `InternalCamera`, the mesh, the movement component, the audio
  component) are plain records.
* `HMD_MODULE_INCLUDED` is a build-time definition that the sources do not fix; it is a
  Boolean field of the state.
* Commands sent to collaborators are recorded: the XR system counts the
  `ResetOrientationAndPosition` calls, the audio component keeps the list of
  `SetFloatParameter` calls (most recent first).
-/

namespace TimeAttack

/-- IEEE 754 single-precision value (the C++ type `float`).  A finite value is a sign and
a magnitude counted in units of `2 ^ (-149)`, the smallest positive single-precision
value, of which every finite single-precision value is an integer multiple; `fin true 0`
is the negative zero. -/
inductive Binary32 where
  | nan : Binary32
  | inf (neg : Bool) : Binary32
  | fin (neg : Bool) (units : Nat) : Binary32
deriving DecidableEq

namespace Binary32

/-- Number of units in the value one: `2 ^ 149`. -/
def one : Nat := 2 ^ 149

/-- First magnitude, in units, that is too large for a finite value: `2 ^ 128` times
`2 ^ 149`. -/
def overflowBound : Nat := 2 ^ 128 * 2 ^ 149

/-- Number of low bits dropped so that 24 significant bits remain: the least `k` with
`q / 2 ^ k < 2 ^ 24`, searched up to `fuel`.  With fuel 300 the search ends for every
magnitude below the overflow bound. -/
def shiftFor : Nat → Nat → Nat
  | 0, _ => 0
  | fuel + 1, q => if q < 2 ^ 24 then 0 else shiftFor fuel (q / 2) + 1

/-- Round the magnitude `n / d` units to a single-precision value with sign `neg`: round
to nearest with 24 significant bits and a spacing of at least one unit, ties to the even
significand, infinity from the overflow bound on. -/
def round (neg : Bool) (n d : Nat) : Binary32 :=
  let q := n / d
  let shift := shiftFor 300 q
  let D := d * 2 ^ shift
  let m := n / D
  let rem := n % D
  let up : Nat := if 2 * rem > D ∨ (2 * rem = D ∧ m % 2 = 1) then 1 else 0
  let res := (m + up) * 2 ^ shift
  if res < overflowBound then fin neg res else inf neg

/-- Conversion of an integer to `float`. -/
def ofInt (z : Int) : Binary32 := round (decide (z < 0)) (z.natAbs * one) 1

/-- The literal `0.036f` of line 307: the single-precision value nearest to `36 / 1000`. -/
def f0_036 : Binary32 := round false (36 * one) 1000

/-- Sign flip (unary minus). -/
def neg : Binary32 → Binary32
  | nan => nan
  | inf a => inf (!a)
  | fin a k => fin (!a) k

/-- Engine `FMath::Abs` on `float`: the value with the sign cleared. -/
def abs : Binary32 → Binary32
  | nan => nan
  | inf _ => inf false
  | fin _ k => fin false k

/-- Single-precision addition. -/
def add : Binary32 → Binary32 → Binary32
  | nan, _ => nan
  | _, nan => nan
  | inf a, inf b => if a = b then inf a else nan
  | inf a, fin _ _ => inf a
  | fin _ _, inf b => inf b
  | fin a k, fin b l =>
      let x : Int := if a then -(k : Int) else k
      let y : Int := if b then -(l : Int) else l
      let z := x + y
      if z = 0 then fin (a && b) 0 else round (decide (z < 0)) z.natAbs 1

/-- Single-precision multiplication. -/
def mul : Binary32 → Binary32 → Binary32
  | nan, _ => nan
  | _, nan => nan
  | inf a, inf b => inf (a != b)
  | inf a, fin b k => if k = 0 then nan else inf (a != b)
  | fin a k, inf b => if k = 0 then nan else inf (a != b)
  | fin a k, fin b l => round (a != b) (k * l) one

/-- Single-precision division. -/
def div : Binary32 → Binary32 → Binary32
  | nan, _ => nan
  | _, nan => nan
  | inf _, inf _ => nan
  | inf a, fin b _ => inf (a != b)
  | fin a _, inf b => fin (a != b) 0
  | fin a k, fin b l =>
      if l = 0 then (if k = 0 then nan else inf (a != b))
      else round (a != b) (k * one) l

/-- Whether the value is finite. -/
def isFinite : Binary32 → Bool
  | fin _ _ => true
  | _ => false

/-- Whether the value is a zero of either sign. -/
def isZero : Binary32 → Bool
  | fin _ 0 => true
  | _ => false

/-- The rational number a finite value stands for. -/
def toRat : Binary32 → Option ℚ
  | fin a k => some ((((if a then -(k : Int) else (k : Int)) : Int) : ℚ) / ((one : Nat) : ℚ))
  | _ => none

end Binary32

/-- Engine vector `FVector(X, Y, Z)`. -/
structure FVector where
  X : ℚ
  Y : ℚ
  Z : ℚ
deriving DecidableEq

/-- Engine rotator `FRotator(Pitch, Yaw, Roll)`. -/
structure FRotator where
  Pitch : Binary32
  Yaw : Binary32
  Roll : Binary32
deriving DecidableEq

/-- Engine colour `FColor(R, G, B, A)`. -/
structure FColor where
  R : Nat
  G : Nat
  B : Nat
  A : Nat
deriving DecidableEq

/-- Engine names (`FName`) are identified with their text. -/
abbrev FName := String

/-- Localisable display text, kept symbolically: the value records which engine call
built it.  `loctext ns key source` is `LOCTEXT(key, source)` under `LOCTEXT_NAMESPACE ns`,
`asNumber n` is `FText::AsNumber(n)`, `format fmt arg0` is `FText::Format(fmt, arg0)`. -/
inductive FText where
  | empty : FText
  | loctext (ns key source : String) : FText
  | asNumber (n : Int) : FText
  | format (fmt arg0 : FText) : FText
deriving DecidableEq

/-- Replace every occurrence of the placeholder `{0}` in a pattern by the argument. -/
def substArg0 : List Char → List Char → List Char
  | '\x7b' :: '0' :: '\x7d' :: rest, a => a ++ substArg0 rest a
  | c :: rest, a => c :: substArg0 rest a
  | [], _ => []

/-- Text shown for an `FText` in the source culture.  The engine's number formatter behind
`FText::AsNumber` is not part of the sources and is the parameter `num`. -/
def FText.render (num : Int → String) : FText → String
  | FText.empty => ""
  | FText.loctext _ _ source => source
  | FText.asNumber n => num n
  | FText.format fmt arg0 =>
      String.mk (substArg0 (FText.render num fmt).data (FText.render num arg0).data)

/-- The `LOCTEXT_NAMESPACE` of the file (line 32). -/
def LOCTEXT_NAMESPACE : String := "VehiclePawn"

/-- Camera component: activation flag and relative transform. -/
structure UCameraComponent where
  bIsActive : Bool
  RelativeLocation : FVector
  RelativeRotation : FRotator
deriving DecidableEq

/-- Engine `UActorComponent::Activate`. -/
def UCameraComponent.Activate (c : UCameraComponent) : UCameraComponent :=
  { c with bIsActive := true }

/-- Engine `UActorComponent::Deactivate`. -/
def UCameraComponent.Deactivate (c : UCameraComponent) : UCameraComponent :=
  { c with bIsActive := false }

/-- Engine `USceneComponent::SetRelativeLocation`. -/
def UCameraComponent.SetRelativeLocation (c : UCameraComponent) (v : FVector) :
    UCameraComponent :=
  { c with RelativeLocation := v }

/-- Text render component of the in-car HUD. -/
structure UTextRenderComponent where
  bVisible : Bool
  Text : FText
  TextRenderColor : FColor
deriving DecidableEq

/-- Engine `USceneComponent::SetVisibility`. -/
def UTextRenderComponent.SetVisibility (c : UTextRenderComponent) (b : Bool) :
    UTextRenderComponent :=
  { c with bVisible := b }

/-- Engine `UTextRenderComponent::SetText`. -/
def UTextRenderComponent.SetText (c : UTextRenderComponent) (t : FText) :
    UTextRenderComponent :=
  { c with Text := t }

/-- Engine `UTextRenderComponent::SetTextRenderColor`. -/
def UTextRenderComponent.SetTextRenderColor (c : UTextRenderComponent) (col : FColor) :
    UTextRenderComponent :=
  { c with TextRenderColor := col }

/-- Controller possessing the pawn.  `bIsPlayerController` says whether
`Cast<APlayerController>` succeeds on it. -/
structure AController where
  bIsPlayerController : Bool
  ControlRotation : FRotator
deriving DecidableEq

/-- Engine `AController::SetControlRotation`. -/
def AController.SetControlRotation (c : AController) (r : FRotator) : AController :=
  { c with ControlRotation := r }

/-- Input component: the current values of the two look axes,
`GetAxisValue(LookUpBinding)` and `GetAxisValue(LookRightBinding)`. -/
structure UInputComponent where
  LookUp : Binary32
  LookRight : Binary32
deriving DecidableEq

/-- Values read from the vehicle movement component. -/
structure UWheeledVehicleMovementComponent where
  ForwardSpeed : Binary32
  CurrentGear : Int
  EngineRotationSpeed : Binary32
  EngineMaxRotationSpeed : Binary32
deriving DecidableEq

/-- Audio component: whether `Play` was called, and the `SetFloatParameter` calls received
(most recent first). -/
structure UAudioComponent where
  bPlaying : Bool
  FloatParameters : List (FName × Binary32)
deriving DecidableEq

/-- Engine `UAudioComponent::Play`. -/
def UAudioComponent.Play (a : UAudioComponent) : UAudioComponent :=
  { a with bPlaying := true }

/-- Engine `UAudioComponent::SetFloatParameter`. -/
def UAudioComponent.SetFloatParameter (a : UAudioComponent) (name : FName)
    (v : Binary32) :
    UAudioComponent :=
  { a with FloatParameters := (name, v) :: a.FloatParameters }

/-- Handle of a physical material asset (`UPhysicalMaterial*`): the asset path, or `none`
for a null handle. -/
abbrev UPhysicalMaterialRef := Option String

/-- Skeletal mesh component: the friction material override. -/
structure USkeletalMeshComponent where
  PhysMaterialOverride : UPhysicalMaterialRef
deriving DecidableEq

/-- Engine `UPrimitiveComponent::SetPhysMaterialOverride`. -/
def USkeletalMeshComponent.SetPhysMaterialOverride (m : USkeletalMeshComponent)
    (mat : UPhysicalMaterialRef) : USkeletalMeshComponent :=
  { m with PhysMaterialOverride := mat }

/-- What the pawn reads from `GEngine` and the head-mounted-display library, with the
number of `ResetOrientationAndPosition` commands the XR system has received. -/
structure UEngine where
  XRSystemValid : Bool
  HeadTrackingAllowed : Bool
  Stereoscopic3D : Bool
  HeadMountedDisplayEnabled : Bool
  XRResetCount : Nat
deriving DecidableEq

/-- Engine `IXRTrackingSystem::ResetOrientationAndPosition`, recorded as a count. -/
def UEngine.ResetOrientationAndPosition (e : UEngine) : UEngine :=
  { e with XRResetCount := e.XRResetCount + 1 }

/-- State of the pawn together with the collaborators it reads and writes.

* `HMD_MODULE_INCLUDED`: the build-time definition tested by `#if` on lines 23, 255, 285, 296.
* `GEngine`: the engine state read through `GEngine` and the head-mounted-display library.
* `DefaultRotator`: the value of the default-constructed `FRotator()` passed on line 300.
* `Controller`: result of `GetController()`, `none` when nothing possesses the pawn.
* `InputComponent`: the inherited `InputComponent` pointer, tested on line 261.
* `VehicleMovement`: what `GetVehicleMovement()` reports.
* `Mesh`: the component returned by `GetMesh()`.
* `ActorUpVector`: result of `GetActorUpVector()`.
* The remaining fields are the members of the class used in the file. -/
structure ATimeAttackPawn where
  HMD_MODULE_INCLUDED : Bool
  GEngine : UEngine
  DefaultRotator : FRotator
  Controller : Option AController
  InputComponent : Option UInputComponent
  VehicleMovement : UWheeledVehicleMovementComponent
  Mesh : USkeletalMeshComponent
  ActorUpVector : FVector
  Camera : UCameraComponent
  InternalCamera : UCameraComponent
  InternalCameraOrigin : FVector
  InCarSpeed : Option UTextRenderComponent
  InCarGear : Option UTextRenderComponent
  EngineSoundComponent : UAudioComponent
  SpeedDisplayString : FText
  GearDisplayString : FText
  GearDisplayColor : FColor
  GearDisplayReverseColor : FColor
  SlipperyMaterial : UPhysicalMaterialRef
  NonSlipperyMaterial : UPhysicalMaterialRef
  bInCarCameraActive : Bool
  bIsLowFriction : Bool
  bInReverseGear : Bool
deriving DecidableEq

namespace ATimeAttackPawn

/-- Static member `EngineAudioRPM` (line 30). -/
def EngineAudioRPM : FName := "RPM"

/-- Result of `Cast<APlayerController>(GetController())`: the controller when there is one
and it is a player controller, null otherwise. -/
def PlayerController (s : ATimeAttackPawn) : Option AController :=
  match s.Controller with
  | some c => if c.bIsPlayerController then some c else none
  | none => none

/-- Value of the local `bHMDActive` computed in `Tick` (lines 254-259) from the build
definition `HMD_MODULE_INCLUDED` and the state of `GEngine`. -/
def bHMDActive (hmdModuleIncluded : Bool) (engine : UEngine) : Bool :=
  if hmdModuleIncluded then
    (engine.XRSystemValid == true) &&
      ((engine.HeadTrackingAllowed == true) || (engine.Stereoscopic3D == true))
  else
    false

/-- `ATimeAttackPawn::OnResetVR` (lines 294-303).  `GetController()` is dereferenced
without a null test on line 300. -/
def OnResetVR (s : ATimeAttackPawn) : Option ATimeAttackPawn :=
  if s.HMD_MODULE_INCLUDED then
    if s.GEngine.XRSystemValid then
      let s1 := { s with GEngine := s.GEngine.ResetOrientationAndPosition }
      let s2 := { s1 with
        InternalCamera := s1.InternalCamera.SetRelativeLocation s1.InternalCameraOrigin }
      match s2.Controller with
      | none => none
      | some c => some { s2 with Controller := some (c.SetControlRotation s2.DefaultRotator) }
    else
      some s
  else
    some s

/-- `ATimeAttackPawn::EnableIncarView` (lines 219-236).  `InCarSpeed` and `InCarGear` are
dereferenced without a null test on lines 233-234. -/
def EnableIncarView (bState : Bool) (s : ATimeAttackPawn) : Option ATimeAttackPawn :=
  if bState != s.bInCarCameraActive then
    let s1 := { s with bInCarCameraActive := bState }
    let switched : Option ATimeAttackPawn :=
      if bState == true then
        match OnResetVR s1 with
        | none => none
        | some r =>
            let r1 := { r with Camera := r.Camera.Deactivate }
            some { r1 with InternalCamera := r1.InternalCamera.Activate }
      else
        let r1 := { s1 with InternalCamera := s1.InternalCamera.Deactivate }
        some { r1 with Camera := r1.Camera.Activate }
    match switched with
    | none => none
    | some s2 =>
        match s2.InCarSpeed with
        | none => none
        | some speed =>
            let s3 := { s2 with
              InCarSpeed := some (speed.SetVisibility s2.bInCarCameraActive) }
            match s3.InCarGear with
            | none => none
            | some gear =>
                some { s3 with
                  InCarGear := some (gear.SetVisibility s3.bInCarCameraActive) }
  else
    some s

/-- `ATimeAttackPawn::OnToggleCamera` (lines 214-217). -/
def OnToggleCamera (s : ATimeAttackPawn) : Option ATimeAttackPawn :=
  EnableIncarView (!s.bInCarCameraActive) s

/-- `ATimeAttackPawn::BeginPlay` (lines 274-292).  `Super::BeginPlay` touches none of the
modelled fields. -/
def BeginPlay (s : ATimeAttackPawn) : Option ATimeAttackPawn :=
  let s1 := { s with bInCarCameraActive := false }
  match s1.InCarSpeed with
  | none => none
  | some speed =>
      let s2 := { s1 with InCarSpeed := some (speed.SetVisibility s1.bInCarCameraActive) }
      match s2.InCarGear with
      | none => none
      | some gear =>
          let s3 := { s2 with InCarGear := some (gear.SetVisibility s2.bInCarCameraActive) }
          let bWantInCar : Bool :=
            if s3.HMD_MODULE_INCLUDED then s3.GEngine.HeadMountedDisplayEnabled else false
          match EnableIncarView bWantInCar s3 with
          | none => none
          | some s4 => some { s4 with EngineSoundComponent := s4.EngineSoundComponent.Play }

/-- Least `int32` value. -/
def INT32_MIN : Int := -(2 : Int) ^ 31

/-- Engine `FMath::FloorToInt` from `float` to `int32`: the integer floor of a finite value
whose floor lies in the `int32` range.  Outside that range, and for infinities and NaN, the
C++ conversion has no defined result; the model returns `INT32_MIN` there, the value the
x86 conversion instructions produce. -/
def FloorToInt (x : Binary32) : Int :=
  match x with
  | Binary32.fin a k =>
      let z : Int := if a then -(k : Int) else (k : Int)
      let n : Int := z / ((Binary32.one : Nat) : Int)
      if INT32_MIN ≤ n ∧ n < 2 ^ 31 then n else INT32_MIN
  | _ => INT32_MIN

/-- `ATimeAttackPawn::UpdateHUDStrings` (lines 305-319). -/
def UpdateHUDStrings (s : ATimeAttackPawn) : ATimeAttackPawn :=
  let KPH : Binary32 := Binary32.mul (Binary32.abs s.VehicleMovement.ForwardSpeed) Binary32.f0_036
  let KPH_int : Int := FloorToInt KPH
  let Gear : Int := s.VehicleMovement.CurrentGear
  let s1 := { s with
    SpeedDisplayString :=
      (FText.format (FText.loctext LOCTEXT_NAMESPACE "SpeedFormat" "\x7b0\x7d km/h")
        (FText.asNumber KPH_int)) }
  if s1.bInReverseGear == true then
    { s1 with GearDisplayString := FText.loctext LOCTEXT_NAMESPACE "ReverseGear" "R" }
  else
    { s1 with GearDisplayString :=
        if Gear == 0 then FText.loctext LOCTEXT_NAMESPACE "N" "N" else FText.asNumber Gear }

/-- `ATimeAttackPawn::SetupInCarHUD` (lines 321-335). -/
def SetupInCarHUD (s : ATimeAttackPawn) : ATimeAttackPawn :=
  match PlayerController s, s.InCarSpeed, s.InCarGear with
  | some _, some speed, some gear =>
      let speed1 := speed.SetText s.SpeedDisplayString
      let gear1 := gear.SetText s.GearDisplayString
      let gear2 :=
        if s.bInReverseGear == false then
          gear1.SetTextRenderColor s.GearDisplayColor
        else
          gear1.SetTextRenderColor s.GearDisplayReverseColor
      { s with InCarSpeed := some speed1, InCarGear := some gear2 }
  | _, _, _ => s

/-- `ATimeAttackPawn::UpdatePhysicsMaterial` (lines 337-348). -/
def UpdatePhysicsMaterial (s : ATimeAttackPawn) : ATimeAttackPawn :=
  if s.ActorUpVector.Z < 0 then
    if s.bIsLowFriction == true then
      let s1 := { s with Mesh := s.Mesh.SetPhysMaterialOverride s.NonSlipperyMaterial }
      { s1 with bIsLowFriction := false }
    else
      let s1 := { s with Mesh := s.Mesh.SetPhysMaterialOverride s.SlipperyMaterial }
      { s1 with bIsLowFriction := true }
  else
    s

/-- `ATimeAttackPawn::Tick` (lines 238-272).  `Super::Tick` touches none of the modelled
fields and is the only user of `Delta`. -/
def Tick (Delta : ℚ) (s : ATimeAttackPawn) : ATimeAttackPawn :=
  let _ := Delta
  let s1 := { s with bInReverseGear := decide (s.VehicleMovement.CurrentGear < 0) }
  let s2 := UpdatePhysicsMaterial s1
  let s3 := UpdateHUDStrings s2
  let s4 := SetupInCarHUD s3
  let s5 :=
    if bHMDActive s4.HMD_MODULE_INCLUDED s4.GEngine == false then
      match s4.InputComponent with
      | some input =>
          if s4.bInCarCameraActive == true then
            let HeadRotation := s4.InternalCamera.RelativeRotation
            let HeadRotation := { HeadRotation with
              Pitch := Binary32.add HeadRotation.Pitch input.LookUp }
            let HeadRotation := { HeadRotation with
              Yaw := Binary32.add HeadRotation.Yaw input.LookRight }
            { s4 with InternalCamera := { s4.InternalCamera with RelativeRotation := HeadRotation } }
          else
            s4
      | none => s4
    else
      s4
  let RPMToAudioScale : Binary32 :=
    Binary32.div (Binary32.ofInt 2500) s5.VehicleMovement.EngineMaxRotationSpeed
  let sound := s5.EngineSoundComponent.SetFloatParameter EngineAudioRPM
    (Binary32.mul s5.VehicleMovement.EngineRotationSpeed RPMToAudioScale)
  { s5 with EngineSoundComponent := sound }

/-- Two presses of the camera toggle in a row. -/
def toggleTwice (s : ATimeAttackPawn) : Option ATimeAttackPawn :=
  match OnToggleCamera s with
  | none => none
  | some s1 => OnToggleCamera s1

/-- The flags agree with the camera mode: the chase camera is active exactly in chase
mode, the in-car camera exactly in in-car mode, and both overlays exist and are visible
exactly in in-car mode. -/
def ViewConsistent (s : ATimeAttackPawn) : Prop :=
  s.Camera.bIsActive = (!s.bInCarCameraActive) ∧
  s.InternalCamera.bIsActive = s.bInCarCameraActive ∧
  s.InCarSpeed.map UTextRenderComponent.bVisible = some s.bInCarCameraActive ∧
  s.InCarGear.map UTextRenderComponent.bVisible = some s.bInCarCameraActive

/-- The null dereference of `OnResetVR` cannot happen: a controller exists whenever the
head-mounted-display module is compiled in and the XR system is valid. -/
def ResetVRSafe (s : ATimeAttackPawn) : Prop :=
  s.HMD_MODULE_INCLUDED = true → s.GEngine.XRSystemValid = true → s.Controller ≠ none

/-- The four observations of the camera toggle agree in two states: activation of both
cameras and visibility of both overlays. -/
def SameView (a b : ATimeAttackPawn) : Prop :=
  a.Camera.bIsActive = b.Camera.bIsActive ∧
  a.InternalCamera.bIsActive = b.InternalCamera.bIsActive ∧
  a.InCarSpeed.map UTextRenderComponent.bVisible =
    b.InCarSpeed.map UTextRenderComponent.bVisible ∧
  a.InCarGear.map UTextRenderComponent.bVisible =
    b.InCarGear.map UTextRenderComponent.bVisible

instance (s : ATimeAttackPawn) : Decidable (ViewConsistent s) := by
  unfold ViewConsistent
  infer_instance

instance (s : ATimeAttackPawn) : Decidable (ResetVRSafe s) := by
  unfold ResetVRSafe
  infer_instance

instance (a b : ATimeAttackPawn) : Decidable (SameView a b) := by
  unfold SameView
  infer_instance

/-- A possessed pawn in chase view without head-mounted display: the member values the
constructor assigns (lines 46-49, 136, 168-172) and sample values for the collaborators. -/
def chasePawn : ATimeAttackPawn where
  HMD_MODULE_INCLUDED := true
  GEngine := {
    XRSystemValid := false
    HeadTrackingAllowed := false
    Stereoscopic3D := false
    HeadMountedDisplayEnabled := false
    XRResetCount := 0 }
  DefaultRotator := {
    Pitch := Binary32.ofInt 0
    Yaw := Binary32.ofInt 0
    Roll := Binary32.ofInt 0 }
  Controller := some {
    bIsPlayerController := true
    ControlRotation := {
      Pitch := Binary32.ofInt 0
      Yaw := Binary32.ofInt 90
      Roll := Binary32.ofInt 0 } }
  InputComponent := some { LookUp := Binary32.ofInt 2, LookRight := Binary32.ofInt (-3) }
  VehicleMovement := {
    ForwardSpeed := Binary32.ofInt 999
    CurrentGear := 2
    EngineRotationSpeed := Binary32.ofInt 1140
    EngineMaxRotationSpeed := Binary32.ofInt 5700 }
  Mesh := { PhysMaterialOverride := none }
  ActorUpVector := { X := 0, Y := 0, Z := 1 }
  Camera := {
    bIsActive := true
    RelativeLocation := { X := -125, Y := 0, Z := 0 }
    RelativeRotation := {
      Pitch := Binary32.ofInt 10
      Yaw := Binary32.ofInt 0
      Roll := Binary32.ofInt 0 } }
  InternalCamera := {
    bIsActive := false
    RelativeLocation := { X := 0, Y := 0, Z := 0 }
    RelativeRotation := {
      Pitch := Binary32.ofInt 0
      Yaw := Binary32.ofInt 0
      Roll := Binary32.ofInt 0 } }
  InternalCameraOrigin := { X := -34, Y := -10, Z := 50 }
  InCarSpeed := some {
    bVisible := false
    Text := FText.empty
    TextRenderColor := { R := 255, G := 255, B := 255, A := 255 } }
  InCarGear := some {
    bVisible := false
    Text := FText.empty
    TextRenderColor := { R := 255, G := 255, B := 255, A := 255 } }
  EngineSoundComponent := { bPlaying := false, FloatParameters := [] }
  SpeedDisplayString := FText.empty
  GearDisplayString := FText.empty
  GearDisplayColor := { R := 255, G := 255, B := 255, A := 255 }
  GearDisplayReverseColor := { R := 255, G := 0, B := 0, A := 255 }
  SlipperyMaterial := some "/Game/VehicleAdv/PhysicsMaterials/Slippery.Slippery"
  NonSlipperyMaterial := some "/Game/VehicleAdv/PhysicsMaterials/NonSlippery.NonSlippery"
  bInCarCameraActive := false
  bIsLowFriction := false
  bInReverseGear := false

/-- The pawn before `BeginPlay` with both camera components active: nothing in the source
deactivates either camera before `BeginPlay` runs. -/
def bothCamerasPawn : ATimeAttackPawn :=
  { chasePawn with InternalCamera := chasePawn.InternalCamera.Activate }

/-- A possessed pawn in chase view with a valid XR system that allows head tracking. -/
def hmdPawn : ATimeAttackPawn :=
  { chasePawn with
    GEngine := {
      XRSystemValid := true
      HeadTrackingAllowed := true
      Stereoscopic3D := false
      HeadMountedDisplayEnabled := true
      XRResetCount := 0 } }

/-- Pawn `hmdPawn` without a controller (not possessed). -/
def unpossessedHmdPawn : ATimeAttackPawn :=
  { hmdPawn with Controller := none }

/-- Pawn `chasePawn` switched to in-car view. -/
def inCarPawn : ATimeAttackPawn :=
  { chasePawn with
    bInCarCameraActive := true
    Camera := chasePawn.Camera.Deactivate
    InternalCamera := chasePawn.InternalCamera.Activate
    InCarSpeed := chasePawn.InCarSpeed.map fun c => c.SetVisibility true
    InCarGear := chasePawn.InCarGear.map fun c => c.SetVisibility true }

/-- Pawn `chasePawn` whose speed overlay pointer is null. -/
def noSpeedOverlayPawn : ATimeAttackPawn :=
  { chasePawn with InCarSpeed := none }

/-- Pawn `inCarPawn` lying on its roof with the low-friction flag set. -/
def overturnedPawn : ATimeAttackPawn :=
  { inCarPawn with
    ActorUpVector := { X := 0, Y := 0, Z := -1 }
    bIsLowFriction := true }

/-- The pawn with the movement component reporting forward speed `v`. -/
def withForwardSpeed (s : ATimeAttackPawn) (v : Binary32) : ATimeAttackPawn :=
  { s with VehicleMovement := { s.VehicleMovement with ForwardSpeed := v } }

/-- The pawn with the movement component reporting engine rotation speed `r`. -/
def withEngineRotationSpeed (s : ATimeAttackPawn) (r : Binary32) : ATimeAttackPawn :=
  { s with VehicleMovement := { s.VehicleMovement with EngineRotationSpeed := r } }

/-- The pawn with the movement component reporting engine rotation speed `r` and engine
max rotation speed `M`. -/
def withEngineSpeeds (s : ATimeAttackPawn) (r M : Binary32) : ATimeAttackPawn :=
  { s with VehicleMovement := { s.VehicleMovement with
      EngineRotationSpeed := r
      EngineMaxRotationSpeed := M } }

set_option maxRecDepth 100000

theorem Binary32_round_cases (neg : Bool) (n d : Nat) :
    Binary32.round neg n d = Binary32.inf neg ∨ ∃ k, Binary32.round neg n d = Binary32.fin neg k := by
  unfold Binary32.round
  dsimp only
  split_ifs <;> first | exact Or.inr ⟨_, rfl⟩ | exact Or.inl rfl

theorem Binary32_round_zero (neg : Bool) (d : Nat) :
    Binary32.round neg 0 d = Binary32.fin neg 0 := by
  simp [Binary32.round, Binary32.shiftFor, Binary32.overflowBound]

theorem Binary32_f0_036_eq : Binary32.f0_036 = Binary32.fin false (2415919 * 2 ^ 123) := by
  decide

theorem Binary32_abs_neg (v : Binary32) : Binary32.abs (Binary32.neg v) = Binary32.abs v := by
  cases v <;> rfl

theorem Binary32_mul_abs_sign (v : Binary32) :
    Binary32.mul (Binary32.abs v) Binary32.f0_036 = Binary32.nan ∨
    Binary32.mul (Binary32.abs v) Binary32.f0_036 = Binary32.inf false ∨
    ∃ k, Binary32.mul (Binary32.abs v) Binary32.f0_036 = Binary32.fin false k := by
  rw [Binary32_f0_036_eq]
  cases v with
  | nan => exact Or.inl rfl
  | inf a => exact Or.inr (Or.inl rfl)
  | fin a k =>
      rcases Binary32_round_cases false (k * (2415919 * 2 ^ 123)) Binary32.one with h | ⟨r, h⟩
      · exact Or.inr (Or.inl h)
      · exact Or.inr (Or.inr ⟨r, h⟩)

theorem FloorToInt_nonneg_fin (k : Nat) (q : ℚ)
    (hq : Binary32.toRat (Binary32.fin false k) = some q) (hlt : q < 2 ^ 31) :
    FloorToInt (Binary32.fin false k) = ⌊q⌋ ∧ 0 ≤ FloorToInt (Binary32.fin false k) := by
  simp only [Binary32.toRat, Bool.false_eq_true, if_false, Option.some.injEq] at hq
  have hfloor : ⌊q⌋ = (k : Int) / ((Binary32.one : Nat) : Int) := by
    rw [← hq]
    exact Rat.floor_intCast_div_natCast (k : Int) Binary32.one
  have hnn : (0 : Int) ≤ (k : Int) / ((Binary32.one : Nat) : Int) :=
    Int.ediv_nonneg (Int.natCast_nonneg k) (Int.natCast_nonneg _)
  have hhi : (k : Int) / ((Binary32.one : Nat) : Int) < 2 ^ 31 := by
    rw [← hfloor]
    exact Int.floor_lt.mpr (by exact_mod_cast hlt)
  have hlo : INT32_MIN ≤ (k : Int) / ((Binary32.one : Nat) : Int) := by
    unfold INT32_MIN
    omega
  unfold FloorToInt
  simp only [Bool.false_eq_true, if_false]
  rw [if_pos ⟨hlo, hhi⟩, hfloor]
  exact ⟨rfl, hnn⟩

/-! ## Lemmas on the camera switch -/

theorem EnableIncarView_of_eq (s : ATimeAttackPawn) (b : Bool)
    (h : s.bInCarCameraActive = b) : EnableIncarView b s = some s := by
  subst h
  simp [EnableIncarView]

theorem EnableIncarView_mode (s s' : ATimeAttackPawn) (b : Bool)
    (h : EnableIncarView b s = some s') : s'.bInCarCameraActive = b := by
  unfold EnableIncarView OnResetVR at h
  cases b <;> cases hb : s.bInCarCameraActive <;>
    cases hsp : s.InCarSpeed <;> cases hg : s.InCarGear <;>
    cases hm : s.HMD_MODULE_INCLUDED <;> cases hx : s.GEngine.XRSystemValid <;>
    cases hc : s.Controller <;>
    simp [hb, hsp, hg, hm, hx, hc] at h <;> subst h <;> simp [hb]

theorem EnableIncarView_switch (s : ATimeAttackPawn) (b : Bool)
    (speed gear : UTextRenderComponent)
    (hb : b ≠ s.bInCarCameraActive)
    (hsp : s.InCarSpeed = some speed) (hg : s.InCarGear = some gear)
    (hsafe : b = true → ResetVRSafe s) :
    ∃ s', EnableIncarView b s = some s' ∧
      s'.bInCarCameraActive = b ∧
      s'.InternalCamera.bIsActive = b ∧
      s'.Camera.bIsActive = (!b) ∧
      s'.InCarSpeed = some (speed.SetVisibility b) ∧
      s'.InCarGear = some (gear.SetVisibility b) ∧
      s'.HMD_MODULE_INCLUDED = s.HMD_MODULE_INCLUDED ∧
      s'.GEngine.XRSystemValid = s.GEngine.XRSystemValid ∧
      (s.Controller ≠ none → s'.Controller ≠ none) := by
  unfold ResetVRSafe at hsafe
  unfold EnableIncarView OnResetVR
  cases b <;> cases hb' : s.bInCarCameraActive <;>
    cases hm : s.HMD_MODULE_INCLUDED <;> cases hx : s.GEngine.XRSystemValid <;>
    cases hc : s.Controller <;>
    simp_all [UCameraComponent.Activate, UCameraComponent.Deactivate,
      UEngine.ResetOrientationAndPosition]

theorem toggleTwice_restores (s : ATimeAttackPawn)
    (hv : ViewConsistent s) (hsafe : ResetVRSafe s) :
    ∃ s2, toggleTwice s = some s2 ∧ SameView s2 s := by
  obtain ⟨hcam, hint, hvs, hvg⟩ := hv
  obtain ⟨speed, hsp, hspv⟩ := Option.map_eq_some'.mp hvs
  obtain ⟨gear, hg, hgv⟩ := Option.map_eq_some'.mp hvg
  obtain ⟨s1, h1, hm1, hi1, hc1, hs1, hg1, hmod1, hxr1, hctl1⟩ :=
    EnableIncarView_switch s (!s.bInCarCameraActive) speed gear (by simp) hsp hg
      (fun _ => hsafe)
  have hsafe1 : ResetVRSafe s1 := by
    intro hm hx
    exact hctl1 (hsafe (hmod1 ▸ hm) (hxr1 ▸ hx))
  obtain ⟨s2, h2, hm2, hi2, hc2, hs2, hg2, -, -, -⟩ :=
    EnableIncarView_switch s1 (!s1.bInCarCameraActive) _ _ (by simp) hs1 hg1
      (fun _ => hsafe1)
  refine ⟨s2, ?_, ?_⟩
  · simp [toggleTwice, OnToggleCamera, h1, h2]
  · simp only [SameView, hc2, hi2, hs2, hg2, hm1, hcam, hint, hsp, hg, Option.map_some',
      UTextRenderComponent.SetVisibility, Bool.not_not, hspv, hgv, and_self]

theorem BeginPlay_view (s0 s : ATimeAttackPawn) (h : BeginPlay s0 = some s)
    (hw : (s0.HMD_MODULE_INCLUDED = true ∧ s0.GEngine.HeadMountedDisplayEnabled = true) ∨
      (s0.Camera.bIsActive = true ∧ s0.InternalCamera.bIsActive = false)) :
    ViewConsistent s := by
  unfold BeginPlay EnableIncarView OnResetVR at h
  unfold ViewConsistent
  cases hsp : s0.InCarSpeed <;> cases hg : s0.InCarGear <;>
    cases hm : s0.HMD_MODULE_INCLUDED <;> cases hx : s0.GEngine.XRSystemValid <;>
    cases he : s0.GEngine.HeadMountedDisplayEnabled <;>
    cases hc : s0.Controller <;>
    simp [hsp, hg, hm, hx, he, hc] at h hw <;> subst h <;>
    simp [hw, UCameraComponent.Activate, UCameraComponent.Deactivate,
      UTextRenderComponent.SetVisibility, UCameraComponent.SetRelativeLocation]

/-- With a controller and both overlays present, entering in-car view from chase view
while a head-mounted device is active sends one reset command to the XR system and puts
the in-car camera at `InternalCameraOrigin`. -/
theorem EnableIncarView_resets_VR (s : ATimeAttackPawn) (c : AController)
    (speed gear : UTextRenderComponent)
    (hmode : s.bInCarCameraActive = false)
    (hhmd : bHMDActive s.HMD_MODULE_INCLUDED s.GEngine = true)
    (hc : s.Controller = some c)
    (hsp : s.InCarSpeed = some speed) (hg : s.InCarGear = some gear) :
    ∃ s', EnableIncarView true s = some s' ∧ OnToggleCamera s = some s' ∧
      s'.GEngine.XRResetCount = s.GEngine.XRResetCount + 1 ∧
      s'.InternalCamera.RelativeLocation = s.InternalCameraOrigin := by
  unfold OnToggleCamera EnableIncarView OnResetVR
  unfold bHMDActive at hhmd
  cases hm : s.HMD_MODULE_INCLUDED <;> cases hx : s.GEngine.XRSystemValid <;>
    simp_all [UCameraComponent.Activate, UCameraComponent.Deactivate,
      UEngine.ResetOrientationAndPosition, UCameraComponent.SetRelativeLocation]

/-! ## Lemmas on the per-frame update -/

theorem UpdatePhysicsMaterial_shape (s : ATimeAttackPawn) :
    ∃ m f, UpdatePhysicsMaterial s = { s with Mesh := m, bIsLowFriction := f } := by
  unfold UpdatePhysicsMaterial
  split_ifs
  · exact ⟨_, _, rfl⟩
  · exact ⟨_, _, rfl⟩
  · exact ⟨s.Mesh, s.bIsLowFriction, rfl⟩

theorem SetupInCarHUD_shape (s : ATimeAttackPawn) :
    ∃ sp g, SetupInCarHUD s = { s with InCarSpeed := sp, InCarGear := g } := by
  unfold SetupInCarHUD
  split
  · exact ⟨_, _, rfl⟩
  · exact ⟨s.InCarSpeed, s.InCarGear, rfl⟩

theorem UpdateHUDStrings_eq (s : ATimeAttackPawn) :
    UpdateHUDStrings s =
      { s with
        SpeedDisplayString :=
          (FText.format (FText.loctext LOCTEXT_NAMESPACE "SpeedFormat" "\x7b0\x7d km/h")
            (FText.asNumber (FloorToInt
              (Binary32.mul (Binary32.abs s.VehicleMovement.ForwardSpeed) Binary32.f0_036))))
        GearDisplayString :=
          (if s.bInReverseGear = true then FText.loctext LOCTEXT_NAMESPACE "ReverseGear" "R"
          else if s.VehicleMovement.CurrentGear = 0 then FText.loctext LOCTEXT_NAMESPACE "N" "N"
          else FText.asNumber s.VehicleMovement.CurrentGear) } := by
  unfold UpdateHUDStrings
  cases s.bInReverseGear <;> simp

/-- One frame written out: `Tick` changes only the reverse-gear flag, the friction state,
the two display strings, the two overlay components, the in-car camera rotation and the
audio component. -/
theorem Tick_shape (Delta : ℚ) (s : ATimeAttackPawn) :
    ∃ m f sp g, Tick Delta s =
      { s with
        bInReverseGear := decide (s.VehicleMovement.CurrentGear < 0)
        Mesh := m
        bIsLowFriction := f
        SpeedDisplayString :=
          (FText.format (FText.loctext LOCTEXT_NAMESPACE "SpeedFormat" "\x7b0\x7d km/h")
            (FText.asNumber (FloorToInt
              (Binary32.mul (Binary32.abs s.VehicleMovement.ForwardSpeed) Binary32.f0_036))))
        GearDisplayString :=
          (if s.VehicleMovement.CurrentGear < 0 then
            FText.loctext LOCTEXT_NAMESPACE "ReverseGear" "R"
          else if s.VehicleMovement.CurrentGear = 0 then FText.loctext LOCTEXT_NAMESPACE "N" "N"
          else FText.asNumber s.VehicleMovement.CurrentGear)
        InCarSpeed := sp
        InCarGear := g
        InternalCamera :=
          (match s.InputComponent with
          | some input =>
              if bHMDActive s.HMD_MODULE_INCLUDED s.GEngine = false ∧
                  s.bInCarCameraActive = true then
                { s.InternalCamera with
                  RelativeRotation := {
                    Pitch := Binary32.add s.InternalCamera.RelativeRotation.Pitch input.LookUp
                    Yaw := Binary32.add s.InternalCamera.RelativeRotation.Yaw input.LookRight
                    Roll := s.InternalCamera.RelativeRotation.Roll } }
              else s.InternalCamera
          | none => s.InternalCamera)
        EngineSoundComponent :=
          (s.EngineSoundComponent.SetFloatParameter EngineAudioRPM
            (Binary32.mul s.VehicleMovement.EngineRotationSpeed
              (Binary32.div (Binary32.ofInt 2500)
                s.VehicleMovement.EngineMaxRotationSpeed))) } := by
  unfold Tick
  obtain ⟨m, f, h2⟩ := UpdatePhysicsMaterial_shape
    { s with bInReverseGear := decide (s.VehicleMovement.CurrentGear < 0) }
  simp only [h2, UpdateHUDStrings_eq]
  generalize hs3 : ({ s with
    bInReverseGear := decide (s.VehicleMovement.CurrentGear < 0)
    Mesh := m
    bIsLowFriction := f
    SpeedDisplayString := _
    GearDisplayString := _ } : ATimeAttackPawn) = s3
  obtain ⟨sp, g, h4⟩ := SetupInCarHUD_shape s3
  simp only [h4]
  subst hs3
  refine ⟨m, f, sp, g, ?_⟩
  cases hh : bHMDActive s.HMD_MODULE_INCLUDED s.GEngine <;>
    cases hi : s.InputComponent <;> cases hb : s.bInCarCameraActive <;> simp [hi, hb, hh]

theorem render_speed_format (num : Int → String) (ns key : String) (n : Int) :
    FText.render num
        (FText.format (FText.loctext ns key "\x7b0\x7d km/h") (FText.asNumber n)) =
      num n ++ " km/h" := by
  apply String.ext
  simp [FText.render, substArg0]

/-! ## Camera mode controller -/

/-- C1, counterexample.  Starting from a pawn whose two cameras are both active, `BeginPlay`
without head-mounted display completes and leaves both cameras active; two camera toggles
in a row then complete and leave the in-car camera inactive, so its activation is not what
it was before the two calls. -/
theorem toggle_twice_after_BeginPlay_changes_view :
    ∃ s0 s2, BeginPlay bothCamerasPawn = some s0 ∧ toggleTwice s0 = some s2 ∧
      s0.InternalCamera.bIsActive = true ∧ s2.InternalCamera.bIsActive = false ∧
      ¬ SameView s2 s0 :=
  ⟨_, _, rfl, rfl, rfl, rfl, fun h => absurd h.2.1 (by decide)⟩

/-- C1, amended.  In a pawn state whose flags agree with the camera mode (chase camera
active exactly in chase mode, in-car camera active exactly in in-car mode, both overlays
present with visibility equal to `bInCarCameraActive`) and in which `OnResetVR` finds a
controller whenever it needs one, two calls of `OnToggleCamera` in a row complete and give
a state with the same activation of both cameras and the same visibility of both overlays.
The state right after `BeginPlay` has agreeing flags when `BeginPlay` asked for the in-car
view, or when beforehand the chase camera was active and the in-car camera inactive. -/
theorem OnToggleCamera_twice_restores_view (s : ATimeAttackPawn) :
    (ViewConsistent s → ResetVRSafe s → ∃ s2, toggleTwice s = some s2 ∧ SameView s2 s) ∧
    (∀ s0, BeginPlay s0 = some s →
      ((s0.HMD_MODULE_INCLUDED = true ∧ s0.GEngine.HeadMountedDisplayEnabled = true) ∨
        (s0.Camera.bIsActive = true ∧ s0.InternalCamera.bIsActive = false)) →
      ViewConsistent s) :=
  ⟨toggleTwice_restores s, fun s0 h hw => BeginPlay_view s0 s h hw⟩

/-- C1, witness: the in-car pawn has agreeing flags and a controller, and two toggles give
back its view. -/
theorem OnToggleCamera_twice_restores_view_witness :
    ViewConsistent inCarPawn ∧ ResetVRSafe inCarPawn ∧
      ∃ s2, toggleTwice inCarPawn = some s2 ∧ SameView s2 inCarPawn :=
  have hv : ViewConsistent inCarPawn := ⟨rfl, rfl, rfl, rfl⟩
  have hs : ResetVRSafe inCarPawn := fun _ _ => by decide
  ⟨hv, hs, (OnToggleCamera_twice_restores_view inCarPawn).1 hv hs⟩

/-- C2.  When `bInCarCameraActive` already equals `b`, `EnableIncarView(b)` completes and
returns the state it was given, unchanged in every field (camera activation, overlay
visibility, XR reset count included).  Hence `EnableIncarView(b)` run twice in a row gives
the same outcome as `EnableIncarView(b)` run once. -/
theorem EnableIncarView_same_mode (s : ATimeAttackPawn) (b : Bool) :
    (s.bInCarCameraActive = b → EnableIncarView b s = some s) ∧
    (EnableIncarView b s).bind (EnableIncarView b) = EnableIncarView b s := by
  refine ⟨EnableIncarView_of_eq s b, ?_⟩
  cases h : EnableIncarView b s with
  | none => rfl
  | some s' => exact EnableIncarView_of_eq s' b (EnableIncarView_mode s s' b h)

/-- C2, witness: asking the chase pawn for chase view changes nothing, and asking the
head-mounted-display pawn twice for in-car view is the same as asking once (the single
call does change the state). -/
theorem EnableIncarView_same_mode_witness :
    chasePawn.bInCarCameraActive = false ∧
      EnableIncarView false chasePawn = some chasePawn ∧
      (EnableIncarView true hmdPawn).bind (EnableIncarView true) =
        EnableIncarView true hmdPawn ∧
      EnableIncarView true hmdPawn ≠ some hmdPawn ∧
      (EnableIncarView true hmdPawn).isSome = true :=
  ⟨rfl, (EnableIncarView_same_mode chasePawn false).1 rfl,
    (EnableIncarView_same_mode hmdPawn true).2,
    fun h => absurd (EnableIncarView_mode hmdPawn hmdPawn true h) (by decide), rfl⟩

/-- C3, failing inputs.  Two chase-mode pawns on which `EnableIncarView(true)` does not
complete, although `true` differs from `bInCarCameraActive`, so none of the claimed
effects is reached: one with both overlays present, a valid XR system and no controller
(`GetController()` is dereferenced on line 300), and one whose speed overlay pointer is
null (dereferenced on line 233). -/
theorem EnableIncarView_faults_on_null :
    (true ≠ unpossessedHmdPawn.bInCarCameraActive ∧
      unpossessedHmdPawn.InCarSpeed ≠ none ∧ unpossessedHmdPawn.InCarGear ≠ none ∧
      EnableIncarView true unpossessedHmdPawn = none) ∧
    (true ≠ noSpeedOverlayPawn.bInCarCameraActive ∧
      EnableIncarView true noSpeedOverlayPawn = none ∧
      ¬ ∃ s', EnableIncarView true noSpeedOverlayPawn = some s' ∧
        s'.InCarSpeed.map UTextRenderComponent.bVisible = some true) :=
  ⟨⟨by decide, by decide, by decide, rfl⟩,
    ⟨by decide, rfl, fun ⟨_, h, _⟩ =>
      Option.noConfusion ((rfl : none = EnableIncarView true noSpeedOverlayPawn).trans h)⟩⟩

/-- Whenever no null pointer is dereferenced (both overlay components exist and, when `b`
is true, `OnResetVR` finds a controller whenever it needs one), `EnableIncarView(b)` with
`b` different from `bInCarCameraActive` completes, and afterwards `bInCarCameraActive`
equals `b`, the in-car camera is active exactly when `b` is true, the chase camera is
active exactly when `b` is false, and both overlays exist with visibility `b`. -/
theorem EnableIncarView_switches_view (s : ATimeAttackPawn) (b : Bool)
    (hb : b ≠ s.bInCarCameraActive)
    (hsp : s.InCarSpeed ≠ none) (hg : s.InCarGear ≠ none)
    (hsafe : b = true → ResetVRSafe s) :
    ∃ s', EnableIncarView b s = some s' ∧
      s'.bInCarCameraActive = b ∧
      (s'.InternalCamera.bIsActive = true ↔ b = true) ∧
      (s'.Camera.bIsActive = true ↔ b = false) ∧
      s'.InCarSpeed.map UTextRenderComponent.bVisible = some b ∧
      s'.InCarGear.map UTextRenderComponent.bVisible = some b := by
  obtain ⟨speed, hsp'⟩ := Option.ne_none_iff_exists'.mp hsp
  obtain ⟨gear, hg'⟩ := Option.ne_none_iff_exists'.mp hg
  obtain ⟨s', h, hm, hi, hc, hs, hgr, -, -, -⟩ :=
    EnableIncarView_switch s b speed gear hb hsp' hg' hsafe
  refine ⟨s', h, hm, ?_, ?_, ?_, ?_⟩
  · rw [hi]
  · rw [hc]; cases b <;> simp
  · rw [hs]; rfl
  · rw [hgr]; rfl

/-- Entering in-car view on the possessed pawn with a valid XR system switches the view. -/
theorem EnableIncarView_switches_view_witness :
    ∃ s', EnableIncarView true hmdPawn = some s' ∧
      s'.bInCarCameraActive = true ∧
      (s'.InternalCamera.bIsActive = true ↔ true = true) ∧
      (s'.Camera.bIsActive = true ↔ true = false) ∧
      s'.InCarSpeed.map UTextRenderComponent.bVisible = some true ∧
      s'.InCarGear.map UTextRenderComponent.bVisible = some true :=
  EnableIncarView_switches_view hmdPawn true (by decide) (by decide) (by decide)
    (fun _ _ _ => by decide)

/-- C7, failing input.  The pawn `unpossessedHmdPawn` is in chase mode, a head-mounted
device is active and nothing possesses the pawn.  `OnResetVR` reaches
`GetController()->SetControlRotation` with a null controller, so neither
`EnableIncarView(true)` nor `OnToggleCamera` completes. -/
theorem OnResetVR_faults_without_controller :
    unpossessedHmdPawn.bInCarCameraActive = false ∧
      bHMDActive unpossessedHmdPawn.HMD_MODULE_INCLUDED unpossessedHmdPawn.GEngine = true ∧
      unpossessedHmdPawn.Controller = none ∧
      OnResetVR unpossessedHmdPawn = none ∧
      EnableIncarView true unpossessedHmdPawn = none ∧
      OnToggleCamera unpossessedHmdPawn = none :=
  ⟨rfl, rfl, rfl, rfl, rfl, rfl⟩

/-! ## Per-frame update -/

/-- C4.  For every gear `g` reported by the movement component during a `Tick` (every
integer, so every signed 32-bit value), the gear display string after the `Tick` is the
text `R` when `g < 0`, the text `N` when `g = 0`, and the number text `FText::AsNumber(g)`
when `g > 0`; it is the text `N` exactly when `g = 0`.  Rendered with any number formatter
`num`, the three cases read `R`, `N` and `num g`. -/
theorem Tick_gear_text (Delta : ℚ) (s : ATimeAttackPawn) :
    (s.VehicleMovement.CurrentGear < 0 →
      (Tick Delta s).GearDisplayString = FText.loctext LOCTEXT_NAMESPACE "ReverseGear" "R") ∧
    (s.VehicleMovement.CurrentGear = 0 →
      (Tick Delta s).GearDisplayString = FText.loctext LOCTEXT_NAMESPACE "N" "N") ∧
    (0 < s.VehicleMovement.CurrentGear →
      (Tick Delta s).GearDisplayString = FText.asNumber s.VehicleMovement.CurrentGear) ∧
    ((Tick Delta s).GearDisplayString = FText.loctext LOCTEXT_NAMESPACE "N" "N" ↔
      s.VehicleMovement.CurrentGear = 0) ∧
    (∀ num : Int → String,
      FText.render num (Tick Delta s).GearDisplayString =
        if s.VehicleMovement.CurrentGear < 0 then "R"
        else if s.VehicleMovement.CurrentGear = 0 then "N"
        else num s.VehicleMovement.CurrentGear) := by
  obtain ⟨m, f, sp, g, h⟩ := Tick_shape Delta s
  rw [h]
  dsimp only
  refine ⟨?_, ?_, ?_, ?_, ?_⟩
  · intro hlt
    rw [if_pos hlt]
  · intro h0
    rw [if_neg (by omega), if_pos h0]
  · intro hpos
    rw [if_neg (by omega), if_neg (by omega)]
  · constructor
    · intro heq
      by_contra hne
      by_cases hlt : s.VehicleMovement.CurrentGear < 0
      · rw [if_pos hlt] at heq
        simp at heq
      · rw [if_neg hlt, if_neg hne] at heq
        simp at heq
    · intro h0
      rw [if_neg (by omega), if_pos h0]
  · intro num
    by_cases hlt : s.VehicleMovement.CurrentGear < 0
    · simp [hlt, FText.render]
    · by_cases h0 : s.VehicleMovement.CurrentGear = 0
      · simp [h0, FText.render]
      · simp [hlt, h0, FText.render]

/-- C4, witness: with gear 2 the `Tick` leaves the number text of 2, which the decimal
formatter renders as `2`. -/
theorem Tick_gear_text_witness :
    (0 : Int) < chasePawn.VehicleMovement.CurrentGear ∧
      (Tick 0 chasePawn).GearDisplayString = FText.asNumber 2 ∧
      FText.render (fun n => toString n) (Tick 0 chasePawn).GearDisplayString = "2" :=
  ⟨by decide, (Tick_gear_text 0 chasePawn).2.2.1 (by decide),
    ((Tick_gear_text 0 chasePawn).2.2.2.2 (fun n => toString n)).trans (by decide)⟩

/-- C5, counterexample.  At forward speed 750 the single-precision product with `0.036f`
is just below 27, so the speed text shows 26, whereas `floor(|750| * 0.036)` is 27. -/
theorem speed_text_at_750 :
    Binary32.toRat (Binary32.ofInt 750) = some 750 ∧
      Binary32.toRat (Binary32.mul (Binary32.abs (Binary32.ofInt 750)) Binary32.f0_036) =
        some (14155775 / 524288) ∧
      (UpdateHUDStrings (withForwardSpeed chasePawn (Binary32.ofInt 750))).SpeedDisplayString =
        FText.format (FText.loctext LOCTEXT_NAMESPACE "SpeedFormat" "\x7b0\x7d km/h")
          (FText.asNumber 26) ∧
      ⌊|(750 : ℚ)| * 0.036⌋ = 27 := by
  have h750 : Binary32.ofInt 750 = Binary32.fin false (750 * 2 ^ 149) := by decide
  have hprod : Binary32.mul (Binary32.abs (Binary32.ofInt 750)) Binary32.f0_036 =
      Binary32.fin false (14155775 * 2 ^ 130) := by decide
  refine ⟨?_, ?_, ?_, ?_⟩
  · rw [h750]
    norm_num [Binary32.toRat, Binary32.one]
  · rw [hprod]
    norm_num [Binary32.toRat, Binary32.one]
  · rw [UpdateHUDStrings_eq]
    show FText.format _ (FText.asNumber (FloorToInt
      (Binary32.mul (Binary32.abs (Binary32.ofInt 750)) Binary32.f0_036))) = _
    have : FloorToInt (Binary32.mul (Binary32.abs (Binary32.ofInt 750)) Binary32.f0_036) = 26 := by
      decide
    rw [this]
  · rw [Int.floor_eq_iff]
    norm_num

/-- C5, amended.  For every single-precision forward speed `v`, `UpdateHUDStrings` sets the
speed display string to the format `{0} km/h` applied to the number text of
`N = FloorToInt(|v| * 0.036f)`, the product being the single-precision product rounded to
nearest; it renders as that number followed by ` km/h`.  Whenever the product is a finite
value `q` below `2 ^ 31`, `N` is `floor(q)` and is not negative.  The string is the same
for `v` and `-v`, and `N` is 0, 0, 0 and 35 for `v` equal to 0, 10, -10 and 999. -/
theorem UpdateHUDStrings_speed_text (s : ATimeAttackPawn) (v : Binary32) :
    (UpdateHUDStrings (withForwardSpeed s v)).SpeedDisplayString =
      FText.format (FText.loctext LOCTEXT_NAMESPACE "SpeedFormat" "\x7b0\x7d km/h")
        (FText.asNumber (FloorToInt (Binary32.mul (Binary32.abs v) Binary32.f0_036))) ∧
    (∀ num : Int → String,
      FText.render num (UpdateHUDStrings (withForwardSpeed s v)).SpeedDisplayString =
        num (FloorToInt (Binary32.mul (Binary32.abs v) Binary32.f0_036)) ++ " km/h") ∧
    (∀ q : ℚ, Binary32.toRat (Binary32.mul (Binary32.abs v) Binary32.f0_036) = some q →
      q < 2 ^ 31 →
      FloorToInt (Binary32.mul (Binary32.abs v) Binary32.f0_036) = ⌊q⌋ ∧
        0 ≤ FloorToInt (Binary32.mul (Binary32.abs v) Binary32.f0_036)) ∧
    (UpdateHUDStrings (withForwardSpeed s (Binary32.neg v))).SpeedDisplayString =
      (UpdateHUDStrings (withForwardSpeed s v)).SpeedDisplayString ∧
    (UpdateHUDStrings (withForwardSpeed s (Binary32.ofInt 0))).SpeedDisplayString =
      FText.format (FText.loctext LOCTEXT_NAMESPACE "SpeedFormat" "\x7b0\x7d km/h")
        (FText.asNumber 0) ∧
    (UpdateHUDStrings (withForwardSpeed s (Binary32.ofInt 10))).SpeedDisplayString =
      FText.format (FText.loctext LOCTEXT_NAMESPACE "SpeedFormat" "\x7b0\x7d km/h")
        (FText.asNumber 0) ∧
    (UpdateHUDStrings (withForwardSpeed s (Binary32.ofInt (-10)))).SpeedDisplayString =
      FText.format (FText.loctext LOCTEXT_NAMESPACE "SpeedFormat" "\x7b0\x7d km/h")
        (FText.asNumber 0) ∧
    (UpdateHUDStrings (withForwardSpeed s (Binary32.ofInt 999))).SpeedDisplayString =
      FText.format (FText.loctext LOCTEXT_NAMESPACE "SpeedFormat" "\x7b0\x7d km/h")
        (FText.asNumber 35) := by
  have hspeed : ∀ w : Binary32,
      (UpdateHUDStrings (withForwardSpeed s w)).SpeedDisplayString =
        FText.format (FText.loctext LOCTEXT_NAMESPACE "SpeedFormat" "\x7b0\x7d km/h")
          (FText.asNumber (FloorToInt (Binary32.mul (Binary32.abs w) Binary32.f0_036))) := by
    intro w
    rw [UpdateHUDStrings_eq]
    rfl
  have h0 : FloorToInt (Binary32.mul (Binary32.abs (Binary32.ofInt 0)) Binary32.f0_036) = 0 := by
    decide
  have h10 : FloorToInt (Binary32.mul (Binary32.abs (Binary32.ofInt 10)) Binary32.f0_036) = 0 := by
    decide
  have hm10 :
      FloorToInt (Binary32.mul (Binary32.abs (Binary32.ofInt (-10))) Binary32.f0_036) = 0 := by
    decide
  have h999 :
      FloorToInt (Binary32.mul (Binary32.abs (Binary32.ofInt 999)) Binary32.f0_036) = 35 := by
    decide
  refine ⟨hspeed v, ?_, ?_, ?_, ?_, ?_, ?_, ?_⟩
  · intro num
    rw [hspeed v, render_speed_format]
  · intro q hq hlt
    rcases Binary32_mul_abs_sign v with h | h | ⟨k, h⟩
    · rw [h] at hq
      simp [Binary32.toRat] at hq
    · rw [h] at hq
      simp [Binary32.toRat] at hq
    · rw [h] at hq ⊢
      exact FloorToInt_nonneg_fin k q hq hlt
  · rw [hspeed, hspeed, Binary32_abs_neg]
  · rw [hspeed, h0]
  · rw [hspeed, h10]
  · rw [hspeed, hm10]
  · rw [hspeed, h999]

/-- C5, witness: at forward speed 999 the product is the finite value 4713873 / 131072
(about 35.964), the speed text is the number text of 35, and with the decimal formatter it
renders as `35 km/h`. -/
theorem UpdateHUDStrings_speed_text_witness :
    Binary32.toRat (Binary32.mul (Binary32.abs (Binary32.ofInt 999)) Binary32.f0_036) =
        some (4713873 / 131072) ∧
      ((4713873 / 131072 : ℚ) < 2 ^ 31) ∧
      FloorToInt (Binary32.mul (Binary32.abs (Binary32.ofInt 999)) Binary32.f0_036) =
        ⌊(4713873 / 131072 : ℚ)⌋ ∧
      FText.render (fun n => toString n)
        (UpdateHUDStrings (withForwardSpeed chasePawn (Binary32.ofInt 999))).SpeedDisplayString =
          "35 km/h" := by
  have hprod : Binary32.mul (Binary32.abs (Binary32.ofInt 999)) Binary32.f0_036 =
      Binary32.fin false (4713873 * 2 ^ 132) := by decide
  have hq : Binary32.toRat (Binary32.mul (Binary32.abs (Binary32.ofInt 999)) Binary32.f0_036) =
      some (4713873 / 131072) := by
    rw [hprod]
    norm_num [Binary32.toRat, Binary32.one]
  have hlt : (4713873 / 131072 : ℚ) < 2 ^ 31 := by norm_num
  have hthm := UpdateHUDStrings_speed_text chasePawn (Binary32.ofInt 999)
  refine ⟨hq, hlt, (hthm.2.2.1 _ hq hlt).1, ?_⟩
  rw [hthm.2.2.2.2.2.2.2]
  rfl

/-- C6, counterexample.  With `r = M = 549` the exact value `r * (2500 / M)` is 2500, but
the `Tick` sends `10239999 / 4096`, that is `2500 - 2 ^ (-12)`.  With `r` scaled by 3 to
1647 the `Tick` sends `15359999 / 2048`, which is not 3 times that value.  With `r = 0` and
the non-zero `M = 2 ^ (-117)` the quotient `2500 / M` overflows to infinity and the `Tick`
sends NaN, not 0. -/
theorem engine_audio_RPM_rounding :
    Binary32.toRat (Binary32.ofInt 549) = some 549 ∧
      (549 : ℚ) * (2500 / 549) = 2500 ∧
      (Tick 0 (withEngineSpeeds chasePawn (Binary32.ofInt 549)
          (Binary32.ofInt 549))).EngineSoundComponent.FloatParameters =
        [("RPM", Binary32.fin false (10239999 * 2 ^ 137))] ∧
      Binary32.toRat (Binary32.fin false (10239999 * 2 ^ 137)) = some (10239999 / 4096) ∧
      (10239999 / 4096 : ℚ) ≠ 2500 ∧
      Binary32.toRat (Binary32.ofInt 1647) = some (3 * 549) ∧
      (Tick 0 (withEngineSpeeds chasePawn (Binary32.ofInt 1647)
          (Binary32.ofInt 549))).EngineSoundComponent.FloatParameters =
        [("RPM", Binary32.fin false (15359999 * 2 ^ 138))] ∧
      Binary32.toRat (Binary32.fin false (15359999 * 2 ^ 138)) = some (15359999 / 2048) ∧
      (15359999 / 2048 : ℚ) ≠ 3 * (10239999 / 4096) ∧
      Binary32.toRat (Binary32.fin false (2 ^ 32)) ≠ some 0 ∧
      (Tick 0 (withEngineSpeeds chasePawn (Binary32.ofInt 0)
          (Binary32.fin false (2 ^ 32)))).EngineSoundComponent.FloatParameters =
        [("RPM", Binary32.nan)] := by
  have hsend : ∀ t : ATimeAttackPawn, (Tick 0 t).EngineSoundComponent.FloatParameters =
      ("RPM", Binary32.mul t.VehicleMovement.EngineRotationSpeed
          (Binary32.div (Binary32.ofInt 2500) t.VehicleMovement.EngineMaxRotationSpeed)) ::
        t.EngineSoundComponent.FloatParameters := by
    intro t
    obtain ⟨m, f, sp, g, h⟩ := Tick_shape 0 t
    rw [h]
    rfl
  have h549 : Binary32.ofInt 549 = Binary32.fin false (549 * 2 ^ 149) := by decide
  have h1647 : Binary32.ofInt 1647 = Binary32.fin false (1647 * 2 ^ 149) := by decide
  have hv1 : Binary32.mul (Binary32.ofInt 549)
      (Binary32.div (Binary32.ofInt 2500) (Binary32.ofInt 549)) =
      Binary32.fin false (10239999 * 2 ^ 137) := by decide
  have hv3 : Binary32.mul (Binary32.ofInt 1647)
      (Binary32.div (Binary32.ofInt 2500) (Binary32.ofInt 549)) =
      Binary32.fin false (15359999 * 2 ^ 138) := by decide
  have hv0 : Binary32.mul (Binary32.ofInt 0)
      (Binary32.div (Binary32.ofInt 2500) (Binary32.fin false (2 ^ 32))) = Binary32.nan := by decide
  refine ⟨?_, by norm_num, ?_, ?_, by norm_num, ?_, ?_, ?_, by norm_num, ?_, ?_⟩
  · rw [h549]
    norm_num [Binary32.toRat, Binary32.one]
  · rw [hsend]
    show [(_, Binary32.mul (Binary32.ofInt 549)
      (Binary32.div (Binary32.ofInt 2500) (Binary32.ofInt 549)))] = _
    rw [hv1]
  · norm_num [Binary32.toRat, Binary32.one]
  · rw [h1647]
    norm_num [Binary32.toRat, Binary32.one]
  · rw [hsend]
    show [(_, Binary32.mul (Binary32.ofInt 1647)
      (Binary32.div (Binary32.ofInt 2500) (Binary32.ofInt 549)))] = _
    rw [hv3]
  · norm_num [Binary32.toRat, Binary32.one]
  · norm_num [Binary32.toRat, Binary32.one]
  · rw [hsend]
    show [(_, Binary32.mul (Binary32.ofInt 0)
      (Binary32.div (Binary32.ofInt 2500) (Binary32.fin false (2 ^ 32))))] = _
    rw [hv0]

/-- C6, amended.  For every single-precision engine rotation speed `r` and engine max
rotation speed `M`, `Tick` sends the audio component one `SetFloatParameter` call, under
the name `RPM`, with the single-precision product of `r` and the single-precision quotient
`2500 / M`, each operation rounded to nearest.  When `r` is a zero and the quotient
`2500 / M` is finite, the value sent is a zero. -/
theorem Tick_engine_audio_RPM (Delta : ℚ) (s : ATimeAttackPawn) :
    EngineAudioRPM = "RPM" ∧
    (Tick Delta s).EngineSoundComponent.FloatParameters =
      ("RPM", Binary32.mul s.VehicleMovement.EngineRotationSpeed
          (Binary32.div (Binary32.ofInt 2500) s.VehicleMovement.EngineMaxRotationSpeed)) ::
        s.EngineSoundComponent.FloatParameters ∧
    (∀ r0 : Binary32, r0.isZero = true →
      (Binary32.div (Binary32.ofInt 2500)
        s.VehicleMovement.EngineMaxRotationSpeed).isFinite = true →
      ∃ z : Binary32, z.isZero = true ∧
        (Tick Delta (withEngineRotationSpeed s r0)).EngineSoundComponent.FloatParameters =
          ("RPM", z) :: s.EngineSoundComponent.FloatParameters) := by
  have hsend : ∀ t : ATimeAttackPawn, (Tick Delta t).EngineSoundComponent.FloatParameters =
      ("RPM", Binary32.mul t.VehicleMovement.EngineRotationSpeed
          (Binary32.div (Binary32.ofInt 2500) t.VehicleMovement.EngineMaxRotationSpeed)) ::
        t.EngineSoundComponent.FloatParameters := by
    intro t
    obtain ⟨m, f, sp, g, h⟩ := Tick_shape Delta t
    rw [h]
    rfl
  refine ⟨rfl, hsend s, ?_⟩
  intro r0 hz hfin
  refine ⟨_, ?_, hsend (withEngineRotationSpeed s r0)⟩
  show (Binary32.mul r0 (Binary32.div (Binary32.ofInt 2500)
    s.VehicleMovement.EngineMaxRotationSpeed)).isZero = true
  generalize Binary32.div (Binary32.ofInt 2500) s.VehicleMovement.EngineMaxRotationSpeed = sc
    at hfin
  cases r0 with
  | nan => simp [Binary32.isZero] at hz
  | inf a => simp [Binary32.isZero] at hz
  | fin a k =>
      cases sc with
      | nan => simp [Binary32.isFinite] at hfin
      | inf b => simp [Binary32.isFinite] at hfin
      | fin b l =>
          cases k with
          | zero =>
              show (Binary32.round (a != b) (0 * l) Binary32.one).isZero = true
              rw [Nat.zero_mul, Binary32_round_zero]
              rfl
          | succ n => simp [Binary32.isZero] at hz

/-- C6, witness: the sample pawn has `r = 1140` and `M = 5700`; the quotient `2500 / M` is
finite, the `Tick` sends `RPM = 500`, and with `r = 0` it sends the zero. -/
theorem Tick_engine_audio_RPM_witness :
    (Binary32.div (Binary32.ofInt 2500)
        chasePawn.VehicleMovement.EngineMaxRotationSpeed).isFinite = true ∧
      (Tick 0 chasePawn).EngineSoundComponent.FloatParameters =
        [("RPM", Binary32.ofInt 500)] ∧
      (∃ z : Binary32, z.isZero = true ∧
        (Tick 0 (withEngineRotationSpeed chasePawn
            (Binary32.ofInt 0))).EngineSoundComponent.FloatParameters = [("RPM", z)]) := by
  have hfin : (Binary32.div (Binary32.ofInt 2500)
      chasePawn.VehicleMovement.EngineMaxRotationSpeed).isFinite = true := by decide
  have hv : Binary32.mul chasePawn.VehicleMovement.EngineRotationSpeed
      (Binary32.div (Binary32.ofInt 2500) chasePawn.VehicleMovement.EngineMaxRotationSpeed) =
      Binary32.ofInt 500 := by decide
  refine ⟨hfin, ?_, (Tick_engine_audio_RPM 0 chasePawn).2.2 (Binary32.ofInt 0) (by decide) hfin⟩
  rw [(Tick_engine_audio_RPM 0 chasePawn).2.1, hv]
  rfl

/-- C8.  When the player controller is absent (no controller, or one that is not a player
controller), or the speed overlay component is absent, or the gear overlay component is
absent, `SetupInCarHUD` returns the state it was given: the text of both overlays and the
colour of the gear text are unchanged, as is everything else. -/
theorem SetupInCarHUD_skips (s : ATimeAttackPawn)
    (h : PlayerController s = none ∨ s.InCarSpeed = none ∨ s.InCarGear = none) :
    SetupInCarHUD s = s ∧
      (SetupInCarHUD s).InCarSpeed.map UTextRenderComponent.Text =
        s.InCarSpeed.map UTextRenderComponent.Text ∧
      (SetupInCarHUD s).InCarGear.map UTextRenderComponent.Text =
        s.InCarGear.map UTextRenderComponent.Text ∧
      (SetupInCarHUD s).InCarGear.map UTextRenderComponent.TextRenderColor =
        s.InCarGear.map UTextRenderComponent.TextRenderColor := by
  have hskip : SetupInCarHUD s = s := by
    unfold SetupInCarHUD
    rcases h with h | h | h <;> (split <;> simp_all)
  rw [hskip]
  exact ⟨rfl, rfl, rfl, rfl⟩

/-- C8, witness: the pawn without controller keeps its state, while the possessed pawn
with both overlays does get its overlay texts replaced. -/
theorem SetupInCarHUD_skips_witness :
    PlayerController unpossessedHmdPawn = none ∧
      SetupInCarHUD unpossessedHmdPawn = unpossessedHmdPawn ∧
      (SetupInCarHUD (UpdateHUDStrings chasePawn)).InCarGear.map UTextRenderComponent.Text =
        some (FText.asNumber 2) :=
  ⟨rfl, (SetupInCarHUD_skips unpossessedHmdPawn (Or.inl rfl)).1, rfl⟩

/-- C9.  When the Z component of the actor up-vector is negative, `UpdatePhysicsMaterial`
negates the low-friction flag and sets the friction material override of the mesh to the
slippery material if the new flag is true and to the non-slippery material otherwise.
When Z is not negative it returns the state it was given (flag and override unchanged). -/
theorem UpdatePhysicsMaterial_flip (s : ATimeAttackPawn) :
    (s.ActorUpVector.Z < 0 →
      (UpdatePhysicsMaterial s).bIsLowFriction = (!s.bIsLowFriction) ∧
      (UpdatePhysicsMaterial s).Mesh.PhysMaterialOverride =
        if (UpdatePhysicsMaterial s).bIsLowFriction = true then s.SlipperyMaterial
        else s.NonSlipperyMaterial) ∧
    (¬ s.ActorUpVector.Z < 0 → UpdatePhysicsMaterial s = s) := by
  unfold UpdatePhysicsMaterial
  constructor
  · intro hz
    cases hf : s.bIsLowFriction <;>
      simp [hz, hf, USkeletalMeshComponent.SetPhysMaterialOverride]
  · intro hz
    simp [hz]

/-- C9, witness: the overturned pawn with the low-friction flag set gets the flag cleared
and the non-slippery material; a second call sets the flag again with the slippery
material; the upright pawn is left as it is. -/
theorem UpdatePhysicsMaterial_flip_witness :
    overturnedPawn.ActorUpVector.Z < 0 ∧
      overturnedPawn.bIsLowFriction = true ∧
      (UpdatePhysicsMaterial overturnedPawn).bIsLowFriction = false ∧
      (UpdatePhysicsMaterial overturnedPawn).Mesh.PhysMaterialOverride =
        some "/Game/VehicleAdv/PhysicsMaterials/NonSlippery.NonSlippery" ∧
      (UpdatePhysicsMaterial (UpdatePhysicsMaterial overturnedPawn)).bIsLowFriction = true ∧
      (UpdatePhysicsMaterial (UpdatePhysicsMaterial overturnedPawn)).Mesh.PhysMaterialOverride =
        some "/Game/VehicleAdv/PhysicsMaterials/Slippery.Slippery" ∧
      UpdatePhysicsMaterial chasePawn = chasePawn := by
  have hz : overturnedPawn.ActorUpVector.Z < 0 := by
    simp [overturnedPawn]
  have hz2 : (UpdatePhysicsMaterial overturnedPawn).ActorUpVector.Z < 0 := by
    obtain ⟨m, f, h⟩ := UpdatePhysicsMaterial_shape overturnedPawn
    rw [h]
    exact hz
  have hup : ¬ chasePawn.ActorUpVector.Z < 0 := by
    simp [chasePawn]
  have h1 := (UpdatePhysicsMaterial_flip overturnedPawn).1 hz
  have h2 := (UpdatePhysicsMaterial_flip (UpdatePhysicsMaterial overturnedPawn)).1 hz2
  have hflag : (UpdatePhysicsMaterial overturnedPawn).bIsLowFriction = false := by
    rw [h1.1]; rfl
  have hflag2 :
      (UpdatePhysicsMaterial (UpdatePhysicsMaterial overturnedPawn)).bIsLowFriction = true := by
    rw [h2.1, hflag]; rfl
  have hs : (UpdatePhysicsMaterial overturnedPawn).SlipperyMaterial =
      some "/Game/VehicleAdv/PhysicsMaterials/Slippery.Slippery" := by
    obtain ⟨m, f, h⟩ := UpdatePhysicsMaterial_shape overturnedPawn
    rw [h]
    rfl
  refine ⟨hz, rfl, hflag, ?_, hflag2, ?_, (UpdatePhysicsMaterial_flip chasePawn).2 hup⟩
  · rw [h1.2, hflag]
    rfl
  · rw [h2.2, hflag2, if_pos rfl, hs]

end ATimeAttackPawn

end TimeAttack
